import Mathlib

/-!
Shallow embedding, in Lean 4, of the risk-adjusted position sizing and
trade-admission pipeline of the DStrade repository.

Modelling conventions:
* Python floats are modelled as exact rationals (`ℚ`); `round` (banker's
  rounding, round-half-to-even) is modelled by `rhe` below.
* A Python function that can raise `ZeroDivisionError` or `AttributeError`
  is modelled as `Option`/`Except`, with `none`/`error` for the raising run.
* `datetime`-based daily resets are modelled under single-day semantics
  (the reset branch is not taken), which is the only case the claims touch.
* pandas `NaN` cells are modelled as `none` (`Option ℚ` / `Option ℝ`).
-/

/-- Python `round(q)`: round half to even, as an integer. -/
def rhe (q : ℚ) : ℤ :=
  let f := ⌊q⌋
  let r := q - f
  if r < 1/2 then f
  else if 1/2 < r then f + 1
  else if f % 2 = 0 then f else f + 1

/-- Python `round(q, d)`: round half to even at `d` decimal places. -/
def roundDec (d : ℕ) (q : ℚ) : ℚ :=
  (rhe (q * 10 ^ d) : ℚ) / 10 ^ d

/-- The per-symbol lot constraints cached by `SymbolInfo.get_symbol_info`
(`src/symbol_info.py`).  `step_decimals` records the number of decimal
places of `qty_step`, i.e. the value `len(str(step).split('.')[1])`
computed inside `_round_to_step`. -/
structure SymbolInfoData where
  min_order_qty : ℚ
  max_order_qty : ℚ
  qty_step : ℚ
  min_order_value : ℚ
  step_decimals : ℕ
  deriving DecidableEq

/-- `SymbolInfo._round_to_step` (`src/symbol_info.py`): round a quantity to
the nearest multiple of the step, then re-round to the step's decimal
precision to avoid float drift. -/
def round_to_step (info : SymbolInfoData) (quantity : ℚ) : ℚ :=
  if info.qty_step ≤ 0 then quantity
  else roundDec info.step_decimals ((rhe (quantity / info.qty_step) : ℚ) * info.qty_step)

/-- `SymbolInfo.validate_order_quantity` (`src/symbol_info.py`), keeping the
boolean verdict and dropping the reason strings. -/
def validate_order_quantity (info : SymbolInfoData) (quantity price : ℚ) : Bool :=
  let rounded_quantity := round_to_step info quantity
  if |quantity - rounded_quantity| > 1/10000 then false
  else if rounded_quantity < info.min_order_qty then false
  else if rounded_quantity * price < info.min_order_value then false
  else true

/-- `SymbolInfo.calculate_proper_quantity` (`src/symbol_info.py`): normalize
a desired USDT notional into an exchange-valid order quantity. -/
def calculate_proper_quantity (info : SymbolInfoData) (desired_usdt_amount price : ℚ) : ℚ :=
  let base_quantity := desired_usdt_amount / price
  let q1 := round_to_step info base_quantity
  let q2 := if q1 < info.min_order_qty then round_to_step info info.min_order_qty else q1
  let q3 :=
    if q2 * price < info.min_order_value then
      let min_quantity := round_to_step info (info.min_order_value / price)
      if min_quantity < info.min_order_qty then round_to_step info info.min_order_qty
      else min_quantity
    else q2
  if q3 > info.max_order_qty then round_to_step info info.max_order_qty else q3

/-- The account-level state of `RiskManager` (`src/src/risk_manager.py`). -/
structure RiskState where
  initial_balance : ℚ
  current_balance : ℚ
  peak_balance : ℚ
  daily_start_balance : ℚ
  deriving DecidableEq

/-- `RiskManager.calculate_drawdown`. -/
def calculate_drawdown (s : RiskState) : ℚ :=
  if s.peak_balance = 0 then 0
  else (s.peak_balance - s.current_balance) / s.peak_balance

/-- `RiskManager.calculate_daily_pnl`. -/
def calculate_daily_pnl (s : RiskState) : ℚ :=
  (s.current_balance - s.daily_start_balance) / s.daily_start_balance

/-- `RiskManager.can_trade` (`src/src/risk_manager.py`), with the two config
values (`Config.MAX_DRAWDOWN` and the `getattr` fallback for
`DAILY_LOSS_LIMIT`) passed as parameters. -/
def can_trade (max_drawdown daily_loss_limit : ℚ) (s : RiskState) : Bool :=
  if calculate_drawdown s > max_drawdown then false
  else if calculate_daily_pnl s < -daily_loss_limit then false
  else if s.current_balance < s.initial_balance * (3/10) then false
  else true

/-- The numeric class attributes that `config/config.py` actually defines on
`Config`.  `MAX_DRAWDOWN` is absent because the file never assigns it;
non-numeric attributes (strings, dicts, booleans) are omitted since the
risk checks only read numeric ones. -/
def configNumAttr : String → Option ℚ
  | "BASE_TRADE_AMOUNT" => some 100
  | "LEVERAGE" => some 10
  | "RSI_PERIOD" => some 14
  | "RSI_OVERSOLD" => some 30
  | "RSI_OVERBOUGHT" => some 70
  | "MACD_FAST" => some 12
  | "MACD_SLOW" => some 26
  | "MACD_SIGNAL" => some 9
  | "STOP_LOSS_PERCENT" => some 2
  | "TAKE_PROFIT_PERCENT" => some 4
  | "MAX_POSITION_SIZE" => some (1/10)
  | "MAX_CONCURRENT_TRADES" => some 3
  | "CORRELATION_THRESHOLD" => some (7/10)
  | _ => none

/-- `RiskManager.can_trade` as wired to `config.config.Config`: the drawdown
branch reads `Config.MAX_DRAWDOWN`, so a missing attribute raises
`AttributeError` (modelled as `Except.error`). -/
def can_trade_wired (daily_loss_limit : ℚ) (s : RiskState) : Except String Bool :=
  let drawdown := calculate_drawdown s
  match configNumAttr "MAX_DRAWDOWN" with
  | none => Except.error "AttributeError: type object Config has no attribute MAX_DRAWDOWN"
  | some limit =>
    if drawdown > limit then Except.ok false
    else if calculate_daily_pnl s < -daily_loss_limit then Except.ok false
    else if s.current_balance < s.initial_balance * (3/10) then Except.ok false
    else Except.ok true

/-- `RiskManager.commission_rate` (0.1 percent, Bybit). -/
def commission_rate : ℚ := 1/1000

/-- `RiskManager.is_trade_profitable` (`src/src/risk_manager.py`): returns
`(net_profit > 0, net_profit, total_commission)`. -/
def is_trade_profitable (entry_price position_size take_profit_price : ℚ) : Bool × ℚ × ℚ :=
  let position_value := entry_price * position_size
  let entry_commission := position_value * commission_rate
  let exit_commission := take_profit_price * position_size * commission_rate
  let total_commission := entry_commission + exit_commission
  let gross_profit :=
    if entry_price < take_profit_price then (take_profit_price - entry_price) * position_size
    else (entry_price - take_profit_price) * position_size
  let net_profit := gross_profit - total_commission
  (net_profit > 0, net_profit, total_commission)

/-- The commission-profitability admission logic of
`ProfessionalTradingBot.analyze_and_trade` (`src/professional_bot.py`):
reject if `is_trade_profitable` is false, then reject if
`net_profit < commission * 2`; otherwise the trade is placed. -/
def commission_admits (entry_price position_size take_profit_price : ℚ) : Bool :=
  let r := is_trade_profitable entry_price position_size take_profit_price
  if !r.1 then false
  else if r.2.1 < r.2.2 * 2 then false
  else true

/-- The mutable state of `AdvancedRiskManager`
(`src/src/risk_management/advanced_risk_manager.py`). -/
structure ARMState where
  initial_balance : ℚ
  current_balance : ℚ
  peak_balance : ℚ
  total_trades : ℕ
  winning_trades : ℕ
  consecutive_losses : ℕ
  max_consecutive_losses : ℕ
  drawdown : ℚ
  max_drawdown : ℚ
  daily_pnl : ℚ
  deriving DecidableEq

/-- `AdvancedRiskManager._calculate_current_drawdown`. -/
def current_drawdown (s : ARMState) : ℚ :=
  if s.peak_balance = 0 then 0
  else (s.peak_balance - s.current_balance) / s.peak_balance

/-- The win-rate part of `AdvancedRiskManager._get_risk_multiplier`. -/
def win_rate_factor (s : ARMState) : ℚ :=
  if 10 < s.total_trades then
    let win_rate : ℚ := (s.winning_trades : ℚ) / (s.total_trades : ℚ)
    if win_rate > 3/5 then 6/5
    else if win_rate < 2/5 then 4/5
    else 1
  else 1

/-- The loss-streak part of `AdvancedRiskManager._get_risk_multiplier`. -/
def streak_factor (s : ARMState) : ℚ :=
  if 2 ≤ s.consecutive_losses then 7/10 else 1

/-- `AdvancedRiskManager._get_risk_multiplier`. -/
def risk_multiplier (s : ARMState) : ℚ :=
  win_rate_factor s * streak_factor s

/-- The consecutive-loss adjustment of
`AdvancedRiskManager.calculate_position_size`, exactly as in the source:
the `elif consecutive_losses >= 5` branch is kept even though the
`>= 3` branch shadows it. -/
def loss_dampener (s : ARMState) : ℚ :=
  if 3 ≤ s.consecutive_losses then 1/2
  else if 5 ≤ s.consecutive_losses then 1/4
  else 1

/-- The drawdown adjustment of `AdvancedRiskManager.calculate_position_size`,
exactly as in the source: the `elif current_drawdown > 0.1` branch is kept
even though the `> 0.05` branch shadows it. -/
def drawdown_dampener (s : ARMState) : ℚ :=
  if 1/20 < current_drawdown s then 7/10
  else if 1/10 < current_drawdown s then 4/10
  else 1

/-- The risk amount computed by lines 39-52 of
`AdvancedRiskManager.calculate_position_size`. -/
def risk_amount (base_risk_per_trade : ℚ) (s : ARMState) : ℚ :=
  ((s.current_balance * base_risk_per_trade * risk_multiplier s) * loss_dampener s)
    * drawdown_dampener s

/-- The fraction of the current balance that `calculate_position_size` puts
at risk: `risk_amount / current_balance`, expressed multiplicatively. -/
def risk_budget_fraction (base_risk_per_trade : ℚ) (s : ARMState) : ℚ :=
  base_risk_per_trade * risk_multiplier s * loss_dampener s * drawdown_dampener s

/-- `AdvancedRiskManager.calculate_position_size`
(`src/src/risk_management/advanced_risk_manager.py`), under single-day
semantics (`_reset_daily_if_needed` takes no action).  `none` models the
`ZeroDivisionError` that `abs(entry_price - stop_loss) / entry_price`
raises when `entry_price == 0`. -/
def arm_calculate_position_size (base_risk_per_trade max_daily_loss : ℚ)
    (min_position_size max_position_size : ℚ) (s : ARMState)
    (entry_price stop_loss : ℚ) : Option ℚ :=
  if entry_price = 0 then none
  else
    let ra := risk_amount base_risk_per_trade s
    let price_risk_pct := |entry_price - stop_loss| / entry_price
    if price_risk_pct = 0 then some 0
    else
      let position_value := ra / price_risk_pct
      let position_size := position_value / entry_price
      let clamped := max min_position_size (min position_size max_position_size)
      if s.current_balance * max_daily_loss ≤ |s.daily_pnl| then some 0
      else some clamped

/-- The state of the flat `AdvancedRiskManager`
(`src/advanced_risk_manager.py`), the fields its
`calculate_position_size` reads. -/
structure ARM1State where
  current_balance : ℚ
  risk_per_trade : ℚ
  consecutive_losses : ℕ
  deriving DecidableEq

/-- `AdvancedRiskManager.calculate_position_size`
(`src/advanced_risk_manager.py`).  `none` models the `ZeroDivisionError`
raised when `entry_price == 0`. -/
def arm1_calculate_position_size (s : ARM1State) (entry_price stop_loss : ℚ) : Option ℚ :=
  if entry_price = 0 then none
  else
    let risk_amt := s.current_balance * s.risk_per_trade
    let price_risk := |entry_price - stop_loss| / entry_price
    if price_risk = 0 then some 0
    else
      let position_value := risk_amt / price_risk
      let position_size := position_value / entry_price
      if 3 ≤ s.consecutive_losses then some (position_size * (1/2))
      else some position_size

/-- `AdvancedRiskManager.update_after_trade`
(`src/src/risk_management/advanced_risk_manager.py`). -/
def update_after_trade (s : ARMState) (pnl : ℚ) (is_win : Bool) : ARMState :=
  let bal := s.current_balance + pnl
  let daily := s.daily_pnl + pnl
  let total := s.total_trades + 1
  let peak := if bal > s.peak_balance then bal else s.peak_balance
  let dd := if peak = 0 then 0 else (peak - bal) / peak
  let mdd := max s.max_drawdown dd
  if is_win then
    { s with current_balance := bal, daily_pnl := daily, total_trades := total,
             peak_balance := peak, drawdown := dd, max_drawdown := mdd,
             winning_trades := s.winning_trades + 1, consecutive_losses := 0 }
  else
    { s with current_balance := bal, daily_pnl := daily, total_trades := total,
             peak_balance := peak, drawdown := dd, max_drawdown := mdd,
             consecutive_losses := s.consecutive_losses + 1,
             max_consecutive_losses := max s.max_consecutive_losses (s.consecutive_losses + 1) }

/-- Folding a sequence of trade outcomes through `update_after_trade`. -/
def run_trades (s : ARMState) (trades : List (ℚ × Bool)) : ARMState :=
  trades.foldl (fun t p => update_after_trade t p.1 p.2) s

/-- A close-price column: one cell per bar index, `none` for a NaN cell or a
missing row (pandas alignment). -/
abbrev PSeries := List (Option ℚ)

/-- The positionwise complete (both non-NaN) observation pairs of two
aligned columns, as pandas pairwise correlation uses them. -/
def completePairs (xs ys : PSeries) : List (ℚ × ℚ) :=
  (xs.zip ys).filterMap fun p =>
    match p with
    | (some a, some b) => some (a, b)
    | _ => none

/-- Pandas pairwise Pearson correlation of two aligned columns
(`DataFrame.corr`, the default of `min_periods`): `none` is NaN, produced
when there are no complete pairs or either column has zero variance over
the complete pairs. -/
noncomputable def pearson (xs ys : PSeries) : Option ℝ :=
  let l := completePairs xs ys
  if l.length = 0 then none
  else
    let n : ℚ := l.length
    let mx := (l.map Prod.fst).sum / n
    let my := (l.map Prod.snd).sum / n
    let sxx := (l.map (fun p => (p.1 - mx) * (p.1 - mx))).sum
    let syy := (l.map (fun p => (p.2 - my) * (p.2 - my))).sum
    let sxy := (l.map (fun p => (p.1 - mx) * (p.2 - my))).sum
    if sxx = 0 ∨ syy = 0 then none
    else some ((sxy : ℝ) / Real.sqrt ((sxx : ℝ) * (syy : ℝ)))

/-- Pandas `Series.mean` with default `skipna`: the mean of the non-NaN
entries, NaN when none remain. -/
noncomputable def optMean (l : List (Option ℝ)) : Option ℝ :=
  let vs := l.filterMap id
  if vs.length = 0 then none
  else some (vs.sum / (vs.length : ℝ))

/-- The `close_prices` dictionary of
`TradingEngine.analyze_portfolio_correlation` (`src/core/trading_engine.py`):
each symbol's close column, keeping only symbols whose DataFrame is not
`None` and not empty (both modelled as an empty column). -/
def buildClosePrices (all_data : List (String × PSeries)) : List (String × PSeries) :=
  all_data.filter fun p => !p.2.isEmpty

/-- Pandas `DataFrame(close_prices)`: columns aligned on the union of the
row indexes, shorter columns padded with NaN. -/
def alignColumns (cols : List (String × PSeries)) : List (String × PSeries) :=
  let n := (cols.map (fun p => p.2.length)).foldr max 0
  cols.map fun p => (p.1, p.2 ++ List.replicate (n - p.2.length) none)

/-- The aligned close-price matrix built from the engine's per-symbol data. -/
def matrixColumns (all_data : List (String × PSeries)) : List (String × PSeries) :=
  alignColumns (buildClosePrices all_data)

/-- `TradingEngine.analyze_portfolio_correlation`
(`src/core/trading_engine.py`): for each configured trading pair present in
the correlation matrix and having at least one other column, the skipna
mean of its pairwise Pearson correlations against the other columns.  A
`some none` value is an entry holding NaN. -/
noncomputable def analyze_portfolio_correlation (trading_pairs : List String)
    (all_data : List (String × PSeries)) : List (String × Option ℝ) :=
  let close_prices := buildClosePrices all_data
  if 1 < close_prices.length then
    let cols := alignColumns close_prices
    trading_pairs.filterMap fun pair =>
      match cols.lookup pair with
      | none => none
      | some xs =>
        let other_pairs := cols.filter fun c => c.1 ≠ pair
        if other_pairs.isEmpty then none
        else some (pair, optMean (other_pairs.map fun c => pearson xs c.2))
  else []

/-- A constraint set whose notional floor is not aligned to the step grid:
step 0.1, minimum notional 0.54 USDT. -/
def misalignedInfo : SymbolInfoData := ⟨1/10, 1000000, 1/10, 27/50, 1⟩

/-- The constraint set of spec scenario 2: min qty 0.1, step 0.1, minimum
notional 5 USDT. -/
def alignedInfo : SymbolInfoData := ⟨1/10, 1000000, 1/10, 5, 1⟩

/-- A five-loss streak account state, otherwise the constructor defaults of
`AdvancedRiskManager` with initial balance 1000. -/
def fiveLossState : ARMState := ⟨1000, 1000, 1000, 0, 0, 5, 0, 0, 0, 0⟩

/-- The zero-loss baseline state, identical to `fiveLossState` except for
the streak counter. -/
def zeroLossState : ARMState := ⟨1000, 1000, 1000, 0, 0, 0, 0, 0, 0, 0⟩

/-- Tracked pairs for the correlation counterexample. -/
def corrPairs : List String := ["A", "B", "C"]

/-- Close data where symbol A has a single observation, so no pairwise
Pearson correlation involving A is defined. -/
def corrData : List (String × PSeries) :=
  [("A", [some 1]), ("B", [some 1, some 2]), ("C", [some 2, some 3])]

/-- A jointly satisfiable, step-grid-aligned constraint set for a price:
the step is a positive `step_decimals`-decimal number; the minimum
quantity, the maximum quantity and the quantity achieving the notional
floor all sit on the step grid; the floors fit below the cap. -/
def GridAligned (info : SymbolInfoData) (price : ℚ) : Prop :=
  0 < info.qty_step ∧
  (∃ m : ℤ, info.qty_step * 10 ^ info.step_decimals = (m : ℚ)) ∧
  (∃ a : ℤ, info.min_order_qty = (a : ℚ) * info.qty_step) ∧
  (∃ b : ℤ, info.max_order_qty = (b : ℚ) * info.qty_step) ∧
  (∃ c : ℤ, info.min_order_value = (c : ℚ) * info.qty_step * price) ∧
  info.min_order_qty ≤ info.max_order_qty ∧
  info.min_order_value ≤ info.max_order_qty * price ∧
  0 < price

/-- One `update_after_trade` call never decreases `max_drawdown`. -/
theorem update_after_trade_max_drawdown_le (s : ARMState) (pnl : ℚ) (is_win : Bool) :
    s.max_drawdown ≤ (update_after_trade s pnl is_win).max_drawdown := by
  cases is_win <;> simp [update_after_trade]

/-- `win_rate_factor` only takes the values 6/5, 4/5 and 1. -/
theorem win_rate_factor_cases (s : ARMState) :
    win_rate_factor s = 6/5 ∨ win_rate_factor s = 4/5 ∨ win_rate_factor s = 1 := by
  simp only [win_rate_factor]
  split_ifs <;> tauto

/-- `streak_factor` only takes the values 7/10 and 1. -/
theorem streak_factor_cases (s : ARMState) :
    streak_factor s = 7/10 ∨ streak_factor s = 1 := by
  unfold streak_factor
  split_ifs <;> tauto

/-- `loss_dampener` only takes the values 1/2 and 1: the 1/4 branch is dead
because `consecutive_losses >= 5` implies `consecutive_losses >= 3`. -/
theorem loss_dampener_cases (s : ARMState) :
    loss_dampener s = 1/2 ∨ loss_dampener s = 1 := by
  unfold loss_dampener
  split_ifs with h1 h2
  · tauto
  · omega
  · tauto

/-- `drawdown_dampener` only takes the values 7/10 and 1: the 4/10 branch is
dead because a drawdown above 0.1 is above 0.05. -/
theorem drawdown_dampener_cases (s : ARMState) :
    drawdown_dampener s = 7/10 ∨ drawdown_dampener s = 1 := by
  unfold drawdown_dampener
  split_ifs with h1 h2
  · tauto
  · linarith
  · tauto

/-- C10: for every account state (and every daily-loss fallback value),
`RiskManager.can_trade` as wired to the repository's `config/config.py`
raises `AttributeError` instead of returning a boolean: the drawdown branch
reads `Config.MAX_DRAWDOWN`, which the config class never defines, while it
does define `STOP_LOSS_PERCENT`, `TAKE_PROFIT_PERCENT` and
`MAX_POSITION_SIZE`. -/
theorem C10_can_trade_raises_attribute_error :
    (∀ (daily_loss_limit : ℚ) (s : RiskState),
      can_trade_wired daily_loss_limit s =
        Except.error "AttributeError: type object Config has no attribute MAX_DRAWDOWN")
    ∧ configNumAttr "MAX_DRAWDOWN" = none
    ∧ configNumAttr "STOP_LOSS_PERCENT" = some 2
    ∧ configNumAttr "TAKE_PROFIT_PERCENT" = some 4
    ∧ configNumAttr "MAX_POSITION_SIZE" = some (1/10) :=
  ⟨fun _ _ => rfl, rfl, rfl, rfl, rfl⟩

/-- C1 counterexample: at drawdown exactly equal to the configured limit
(balance 850, peak 1000, limit 0.15, with the day started at 850 so the
daily check is clean), `can_trade` returns `true`, refuting the claim that
it returns `false` whenever `(peak - current) / peak >= limit`. -/
theorem C1_cex_drawdown_at_limit_still_trades :
    calculate_drawdown ⟨1000, 850, 1000, 850⟩ = 3/20 ∧
    can_trade (3/20) (3/100) ⟨1000, 850, 1000, 850⟩ = true := by
  constructor
  · norm_num [calculate_drawdown]
  · norm_num [can_trade, calculate_drawdown, calculate_daily_pnl]

/-- C1 amended: `can_trade` returns `false` whenever the drawdown strictly
exceeds the configured limit (at exact equality the drawdown branch does
not trip); the scenario-1 state (balance 1000 to 850 within the day) still
returns `false`, but through the daily-loss branch. -/
theorem C1_amended_strict_drawdown_blocks :
    (∀ (max_drawdown daily_loss_limit : ℚ) (s : RiskState),
      max_drawdown < calculate_drawdown s →
      can_trade max_drawdown daily_loss_limit s = false)
    ∧ can_trade (3/20) (3/100) ⟨1000, 850, 1000, 1000⟩ = false := by
  constructor
  · intro mdd dll s h
    unfold can_trade
    rw [if_pos h]
  · norm_num [can_trade, calculate_drawdown, calculate_daily_pnl]

/-- C1 amended witness: at drawdown 0.2 against limit 0.15, trading is
blocked. -/
theorem C1_amended_witness :
    (3/20 : ℚ) < calculate_drawdown ⟨1000, 800, 1000, 1000⟩ ∧
    can_trade (3/20) (3/100) ⟨1000, 800, 1000, 1000⟩ = false :=
  ⟨by norm_num [calculate_drawdown],
   C1_amended_strict_drawdown_blocks.1 (3/20) (3/100) ⟨1000, 800, 1000, 1000⟩
     (by norm_num [calculate_drawdown])⟩

/-- C2: with five consecutive losses the code multiplies the risk budget by
1/2 (the `>= 3` branch; 7/20 of the zero-loss baseline once the streak
multiplier 7/10 of `_get_risk_multiplier` is included), never by the 1/4 of
the unreachable `elif consecutive_losses >= 5` branch. -/
theorem C2_five_loss_dampener_dead_branch :
    loss_dampener fiveLossState = 1/2 ∧
    risk_amount (1/50) fiveLossState = 7 ∧
    risk_amount (1/50) zeroLossState = 20 ∧
    risk_amount (1/50) fiveLossState ≠ (1/4) * risk_amount (1/50) zeroLossState := by
  refine ⟨?_, ?_, ?_, ?_⟩ <;>
    norm_num [risk_amount, risk_multiplier, win_rate_factor, streak_factor, loss_dampener,
      drawdown_dampener, current_drawdown, fiveLossState, zeroLossState]

/-- C3: for every account state the risk budget fraction used by
`calculate_position_size` stays within [0.1 x base, 2.0 x base]; the last
conjunct ties the fraction to the code's risk amount. -/
theorem C3_risk_budget_fraction_bounds (base : ℚ) (s : ARMState) (hbase : 0 ≤ base) :
    (1/10) * base ≤ risk_budget_fraction base s ∧
    risk_budget_fraction base s ≤ 2 * base ∧
    risk_amount base s = s.current_balance * risk_budget_fraction base s := by
  refine ⟨?_, ?_, ?_⟩
  · rcases win_rate_factor_cases s with hw | hw | hw <;>
      rcases streak_factor_cases s with hs | hs <;>
      rcases loss_dampener_cases s with hl | hl <;>
      rcases drawdown_dampener_cases s with hd | hd <;>
      simp only [risk_budget_fraction, risk_multiplier, hw, hs, hl, hd] <;>
      nlinarith [hbase]
  · rcases win_rate_factor_cases s with hw | hw | hw <;>
      rcases streak_factor_cases s with hs | hs <;>
      rcases loss_dampener_cases s with hl | hl <;>
      rcases drawdown_dampener_cases s with hd | hd <;>
      simp only [risk_budget_fraction, risk_multiplier, hw, hs, hl, hd] <;>
      nlinarith [hbase]
  · unfold risk_amount risk_budget_fraction risk_multiplier
    ring

/-- C3 witness: with base risk 0.02 and the fresh account state, the
fraction is 0.02 and the bounds hold. -/
theorem C3_witness :
    (0 : ℚ) ≤ 1/50 ∧
    ((1/10) * (1/50) ≤ risk_budget_fraction (1/50) zeroLossState ∧
     risk_budget_fraction (1/50) zeroLossState ≤ 2 * (1/50) ∧
     risk_amount (1/50) zeroLossState =
       zeroLossState.current_balance * risk_budget_fraction (1/50) zeroLossState) :=
  ⟨by norm_num, C3_risk_budget_fraction_bounds (1/50) zeroLossState (by norm_num)⟩

/-- C4 counterexample: a trade whose net profit equals exactly twice the
round-trip commission (entry 100, size 1, take-profit 100300/997, so net =
commission x 2 = 400/997 > 0) is admitted by the bot, while the claim says
a trade must strictly exceed 2x the commission to be placed. -/
theorem C4_cex_exact_double_commission_admitted :
    commission_admits 100 1 (100300/997) = true ∧
    (is_trade_profitable 100 1 (100300/997)).2.1 =
      2 * (is_trade_profitable 100 1 (100300/997)).2.2 ∧
    0 < (is_trade_profitable 100 1 (100300/997)).2.2 := by
  refine ⟨?_, ?_, ?_⟩ <;>
    norm_num [commission_admits, is_trade_profitable, commission_rate]

/-- C4 amended: the bot admits a trade on the commission check exactly when
the projected net profit is positive and at least (not strictly more than)
twice the round-trip commission. -/
theorem C4_amended_admission_iff :
    ∀ (entry_price position_size take_profit_price : ℚ),
      commission_admits entry_price position_size take_profit_price = true ↔
        (0 < (is_trade_profitable entry_price position_size take_profit_price).2.1 ∧
         (is_trade_profitable entry_price position_size take_profit_price).2.2 * 2 ≤
           (is_trade_profitable entry_price position_size take_profit_price).2.1) := by
  intro e q tp
  unfold commission_admits is_trade_profitable
  split_ifs <;>
    simp_all [not_lt, decide_eq_true_eq]

/-- C7: when the entry price is positive and equals the stop loss, both
`calculate_position_size` implementations short-circuit on the zero price
risk and return quantity 0 instead of dividing by it. -/
theorem C7_degenerate_stop_returns_zero
    (s1 : ARM1State) (base mdl minPos maxPos : ℚ) (s : ARMState) (entry : ℚ)
    (h : 0 < entry) :
    arm1_calculate_position_size s1 entry entry = some 0 ∧
    arm_calculate_position_size base mdl minPos maxPos s entry entry = some 0 := by
  constructor
  · unfold arm1_calculate_position_size
    rw [if_neg h.ne']
    simp
  · unfold arm_calculate_position_size
    rw [if_neg h.ne']
    simp

/-- C7 witness: entry 100 = stop loss 100 sizes to 0 in both managers. -/
theorem C7_witness :
    (0 : ℚ) < 100 ∧
    (arm1_calculate_position_size ⟨1000, 1/50, 0⟩ 100 100 = some 0 ∧
     arm_calculate_position_size (1/50) (1/20) 0 1000000 zeroLossState 100 100 = some 0) :=
  ⟨by norm_num,
   C7_degenerate_stop_returns_zero ⟨1000, 1/50, 0⟩ (1/50) (1/20) 0 1000000 zeroLossState 100
     (by norm_num)⟩

/-- C8: `max_drawdown` never decreases, in one `update_after_trade` call and
across any sequence of calls. -/
theorem C8_max_drawdown_monotone :
    (∀ (s : ARMState) (pnl : ℚ) (is_win : Bool),
      s.max_drawdown ≤ (update_after_trade s pnl is_win).max_drawdown)
    ∧ ∀ (s : ARMState) (trades : List (ℚ × Bool)),
        s.max_drawdown ≤ (run_trades s trades).max_drawdown := by
  refine ⟨update_after_trade_max_drawdown_le, ?_⟩
  intro s trades
  induction trades generalizing s with
  | nil => simp [run_trades]
  | cons t ts ih =>
    simp only [run_trades, List.foldl_cons]
    exact le_trans (update_after_trade_max_drawdown_le s t.1 t.2) (ih _)

/-- Python `round` is the identity on integers. -/
theorem rhe_intCast (k : ℤ) : rhe (k : ℚ) = k := by
  simp only [rhe, Int.floor_intCast, sub_self]
  norm_num

/-- Rounding at `d` decimals is the identity on integer multiples of a
`d`-decimal step. -/
theorem roundDec_int_mul (d : ℕ) (step : ℚ) (m : ℤ) (hrep : step * 10 ^ d = (m : ℚ)) (k : ℤ) :
    roundDec d ((k : ℚ) * step) = (k : ℚ) * step := by
  unfold roundDec
  have h1 : (k : ℚ) * step * 10 ^ d = ((k * m : ℤ) : ℚ) := by
    push_cast
    rw [mul_assoc, hrep]
  rw [h1, rhe_intCast]
  have h10 : (10 : ℚ) ^ d ≠ 0 := by positivity
  field_simp
  rw [mul_assoc, hrep]

/-- Normal form of `_round_to_step` for a positive `d`-decimal step: the
decimal re-round is the identity, leaving nearest-multiple rounding. -/
theorem round_to_step_eq (info : SymbolInfoData) (hstep : 0 < info.qty_step)
    (hrep : ∃ m : ℤ, info.qty_step * 10 ^ info.step_decimals = (m : ℚ)) (q : ℚ) :
    round_to_step info q = (rhe (q / info.qty_step) : ℚ) * info.qty_step := by
  obtain ⟨m, hm⟩ := hrep
  unfold round_to_step
  rw [if_neg (not_le.mpr hstep)]
  exact roundDec_int_mul _ _ m hm _

/-- `_round_to_step` fixes every integer multiple of the step. -/
theorem round_to_step_int_mul (info : SymbolInfoData) (hstep : 0 < info.qty_step)
    (hrep : ∃ m : ℤ, info.qty_step * 10 ^ info.step_decimals = (m : ℚ)) (k : ℤ) :
    round_to_step info ((k : ℚ) * info.qty_step) = (k : ℚ) * info.qty_step := by
  rw [round_to_step_eq info hstep hrep]
  have h : (k : ℚ) * info.qty_step / info.qty_step = (k : ℚ) := by
    field_simp
  rw [h, rhe_intCast]

/-- For grid-aligned satisfiable constraints, `calculate_proper_quantity`
returns a step multiple that meets the quantity floor, the notional floor
and the quantity cap. -/
theorem calculate_proper_quantity_valid (info : SymbolInfoData) (desired price : ℚ)
    (hg : GridAligned info price) :
    (∃ k : ℤ, calculate_proper_quantity info desired price = (k : ℚ) * info.qty_step) ∧
    info.min_order_qty ≤ calculate_proper_quantity info desired price ∧
    info.min_order_value ≤ calculate_proper_quantity info desired price * price ∧
    calculate_proper_quantity info desired price ≤ info.max_order_qty := by
  obtain ⟨hstep, hrep, ⟨a, ha⟩, ⟨b, hb⟩, ⟨c, hc⟩, hminmax, hsat, hp⟩ := hg
  have hfix : ∀ k : ℤ, round_to_step info ((k : ℚ) * info.qty_step) = (k : ℚ) * info.qty_step :=
    round_to_step_int_mul info hstep hrep
  have hmult : ∀ q : ℚ, ∃ k : ℤ, round_to_step info q = (k : ℚ) * info.qty_step :=
    fun q => ⟨rhe (q / info.qty_step), round_to_step_eq info hstep hrep q⟩
  have hmin_fix : round_to_step info info.min_order_qty = info.min_order_qty := by
    rw [ha]; exact hfix a
  have hmax_fix : round_to_step info info.max_order_qty = info.max_order_qty := by
    rw [hb]; exact hfix b
  have hmv : info.min_order_value / price = (c : ℚ) * info.qty_step := by
    rw [hc]; field_simp
  have hmv_fix : round_to_step info (info.min_order_value / price) =
      info.min_order_value / price := by
    rw [hmv]; exact hfix c
  have hmv_val : info.min_order_value / price * price = info.min_order_value := by
    field_simp
  simp only [calculate_proper_quantity]
  set q1 := round_to_step info (desired / price) with hq1def
  set mq := round_to_step info (info.min_order_value / price) with hmqdef
  set q2 := if q1 < info.min_order_qty then round_to_step info info.min_order_qty else q1
    with hq2def
  set q3 := if q2 * price < info.min_order_value then
      (if mq < info.min_order_qty then round_to_step info info.min_order_qty else mq)
    else q2 with hq3def
  have hq2_mult : ∃ k : ℤ, q2 = (k : ℚ) * info.qty_step := by
    rw [hq2def]
    split_ifs
    · exact hmult _
    · rw [hq1def]; exact hmult _
  have hq2_ge : info.min_order_qty ≤ q2 := by
    rw [hq2def]
    split_ifs with h
    · rw [hmin_fix]
    · exact not_lt.mp h
  have hq3_mult : ∃ k : ℤ, q3 = (k : ℚ) * info.qty_step := by
    rw [hq3def]
    split_ifs
    · exact hmult _
    · rw [hmqdef]; exact hmult _
    · exact hq2_mult
  have hq3_ge : info.min_order_qty ≤ q3 := by
    rw [hq3def]
    split_ifs with h hm
    · rw [hmin_fix]
    · exact not_lt.mp hm
    · exact hq2_ge
  have hq3_val : info.min_order_value ≤ q3 * price := by
    rw [hq3def]
    split_ifs with h hm
    · rw [hmin_fix]
      have hlt : mq * price < info.min_order_qty * price :=
        mul_lt_mul_of_pos_right hm hp
      rw [hmv_fix, hmv_val] at hlt
      exact le_of_lt hlt
    · have hmqp : mq * price = info.min_order_value := by rw [hmv_fix, hmv_val]
      exact le_of_eq hmqp.symm
    · exact not_lt.mp h
  split_ifs with h4
  · rw [hmax_fix]
    exact ⟨⟨b, hb⟩, hminmax, hsat, le_refl _⟩
  · exact ⟨hq3_mult, hq3_ge, hq3_val, not_lt.mp h4⟩

/-- Any quantity that sits on the step grid and meets all three constraints
is returned unchanged when its notional is normalized again. -/
theorem calculate_proper_quantity_notional_fixed (info : SymbolInfoData) (price q : ℚ)
    (hg : GridAligned info price)
    (hmult : ∃ k : ℤ, q = (k : ℚ) * info.qty_step)
    (hge : info.min_order_qty ≤ q)
    (hval : info.min_order_value ≤ q * price)
    (hle : q ≤ info.max_order_qty) :
    calculate_proper_quantity info (q * price) price = q := by
  obtain ⟨hstep, hrep, _, _, _, _, _, hp⟩ := hg
  obtain ⟨k, hk⟩ := hmult
  have hbase : q * price / price = q := by field_simp
  have hfix : round_to_step info q = q := by
    rw [hk]; exact round_to_step_int_mul info hstep hrep k
  simp only [calculate_proper_quantity]
  rw [hbase, hfix]
  rw [if_neg (not_lt.mpr hge), if_neg (not_lt.mpr hval), if_neg (not_lt.mpr hle)]

/-- Scenario 2's constraint set is grid-aligned at price 50. -/
theorem gridAligned_alignedInfo : GridAligned alignedInfo 50 :=
  ⟨by norm_num [alignedInfo], ⟨1, by norm_num [alignedInfo]⟩, ⟨1, by norm_num [alignedInfo]⟩,
   ⟨10000000, by norm_num [alignedInfo]⟩, ⟨1, by norm_num [alignedInfo]⟩,
   by norm_num [alignedInfo], by norm_num [alignedInfo], by norm_num⟩

/-- C5 counterexample: with satisfiable constraints (step 0.1, min qty 0.1,
notional floor 0.54, huge cap) at price 1, normalizing a small desired
notional yields 0.5, whose notional 0.5 is below the floor 0.54, so
`validate_order_quantity` rejects the output of
`calculate_proper_quantity`: nearest-rounding of `min_order_value / price`
can land below the notional floor. -/
theorem C5_cex_normalized_quantity_fails_validation :
    misalignedInfo.min_order_value ≤ misalignedInfo.max_order_qty * 1 ∧ (0 : ℚ) < 1 ∧
    calculate_proper_quantity misalignedInfo (1/100) 1 = 1/2 ∧
    validate_order_quantity misalignedInfo (calculate_proper_quantity misalignedInfo (1/100) 1) 1
      = false := by
  refine ⟨by norm_num [misalignedInfo], by norm_num, ?_, ?_⟩ <;>
    norm_num [calculate_proper_quantity, validate_order_quantity, misalignedInfo,
      round_to_step, roundDec, rhe]

/-- C5 amended: when additionally the quantity floor, the quantity cap and
the quantity achieving the notional floor are integer multiples of the
(positive, decimal) step and the floors fit below the cap, the output of
`calculate_proper_quantity` always passes `validate_order_quantity`. -/
theorem C5_amended_normalize_validates (info : SymbolInfoData) (desired price : ℚ)
    (hg : GridAligned info price) :
    validate_order_quantity info (calculate_proper_quantity info desired price) price = true := by
  obtain ⟨⟨k, hk⟩, hge, hval, _⟩ := calculate_proper_quantity_valid info desired price hg
  obtain ⟨hstep, hrep, _⟩ := hg
  have hfix : round_to_step info (calculate_proper_quantity info desired price) =
      calculate_proper_quantity info desired price := by
    rw [hk]; exact round_to_step_int_mul info hstep hrep k
  simp only [validate_order_quantity]
  rw [hfix, sub_self, abs_zero]
  rw [if_neg (by norm_num), if_neg (not_lt.mpr hge), if_neg (not_lt.mpr hval)]

/-- C5 amended witness: scenario 2 (desired 3 USDT at price 50) normalizes
to a quantity that validates. -/
theorem C5_amended_witness :
    GridAligned alignedInfo 50 ∧
    validate_order_quantity alignedInfo (calculate_proper_quantity alignedInfo 3 50) 50 = true :=
  ⟨gridAligned_alignedInfo, C5_amended_normalize_validates alignedInfo 3 50 gridAligned_alignedInfo⟩

/-- C6 counterexample: `normalize_quantity` maps a desired USDT notional to
a quantity, so feeding its output (a quantity) back as the notional is not
a fixed point: with scenario 2's constraints at price 50, notional 1000
normalizes to quantity 20, but normalizing 20 gives 0.4. -/
theorem C6_cex_direct_composition_not_idempotent :
    calculate_proper_quantity alignedInfo 1000 50 = 20 ∧
    calculate_proper_quantity alignedInfo (calculate_proper_quantity alignedInfo 1000 50) 50
      = 2/5 ∧
    ((2 : ℚ)/5) ≠ 20 := by
  refine ⟨?_, ?_, by norm_num⟩ <;>
    norm_num [calculate_proper_quantity, alignedInfo, round_to_step, roundDec, rhe]

/-- C6 amended: re-normalizing the notional actually achieved by an
already-normalized quantity (its quantity times the price) returns that
quantity unchanged, for grid-aligned satisfiable constraints. -/
theorem C6_amended_notional_idempotent (info : SymbolInfoData) (desired price : ℚ)
    (hg : GridAligned info price) :
    calculate_proper_quantity info (calculate_proper_quantity info desired price * price) price =
      calculate_proper_quantity info desired price := by
  obtain ⟨hm, hge, hval, hle⟩ := calculate_proper_quantity_valid info desired price hg
  exact calculate_proper_quantity_notional_fixed info price _ hg hm hge hval hle

/-- C6 amended witness: scenario 2's normalized quantity for notional 3 is a
fixed point when its achieved notional is re-normalized. -/
theorem C6_amended_witness :
    GridAligned alignedInfo 50 ∧
    calculate_proper_quantity alignedInfo (calculate_proper_quantity alignedInfo 3 50 * 50) 50 =
      calculate_proper_quantity alignedInfo 3 50 :=
  ⟨gridAligned_alignedInfo, C6_amended_notional_idempotent alignedInfo 3 50 gridAligned_alignedInfo⟩

/-- A skipna mean over a list of all-NaN values is NaN. -/
theorem optMean_all_none (l : List (Option ℝ)) (h : ∀ x ∈ l, x = none) : optMean l = none := by
  have hnil : List.filterMap id l = [] := List.filterMap_eq_nil_iff.mpr h
  unfold optMean
  rw [hnil]
  simp

/-- Looking up a key in a `filterMap`-built association list whose producer
tags every entry with its source key finds the value produced for that
key. -/
theorem lookup_filterMap_keyed {α : Type} (g : String → Option (String × α))
    (hg : ∀ q e, g q = some e → e.1 = q) :
    ∀ (pairs : List String) (p : String) (v : α), p ∈ pairs → g p = some (p, v) →
      (pairs.filterMap g).lookup p = some v := by
  intro pairs
  induction pairs with
  | nil =>
    intro p v hp
    simp at hp
  | cons q rest ih =>
    intro p v hp hgp
    simp only [List.filterMap_cons]
    cases hgq : g q with
    | none =>
      rcases List.mem_cons.mp hp with rfl | hmem
      · rw [hgp] at hgq
        cases hgq
      · exact ih p v hmem hgp
    | some e =>
      obtain ⟨k, w⟩ := e
      have hk : k = q := hg q (k, w) hgq
      subst hk
      by_cases hpq : p = k
      · subst hpq
        rw [hgp] at hgq
        injection hgq with hgq2
        injection hgq2 with h1 h2
        subst h2
        simp [List.lookup]
      · have hb : (p == k) = false := beq_eq_false_iff_ne.mpr hpq
        have hmem : p ∈ rest := by
          rcases List.mem_cons.mp hp with rfl | hmem
          · exact absurd rfl hpq
          · exact hmem
        simp only [List.lookup, hb]
        exact ih p v hmem hgp

/-- C9 counterexample: symbol A has a single observation, so its pairwise
Pearson correlation against B and C is NaN in both cases; the code still
stores an entry for A holding NaN (`some none`), instead of leaving A
absent from the result map as the claim states. -/
theorem C9_cex_no_comparable_series_maps_to_nan :
    (analyze_portfolio_correlation corrPairs corrData).lookup "A" = some none ∧
    (analyze_portfolio_correlation corrPairs corrData).lookup "A" ≠ none := by
  have hAB : pearson [some 1, none] [some (1:ℚ), some 2] = none := by
    simp only [pearson]
    rw [show completePairs [some 1, none] [some (1:ℚ), some 2] = [(1,1)] by simp [completePairs]]
    norm_num
  have hAC : pearson [some 1, none] [some (2:ℚ), some 3] = none := by
    simp only [pearson]
    rw [show completePairs [some 1, none] [some (2:ℚ), some 3] = [(1,2)] by simp [completePairs]]
    norm_num
  have hmain : (analyze_portfolio_correlation corrPairs corrData).lookup "A" = some none := by
    simp only [analyze_portfolio_correlation, corrPairs, corrData, buildClosePrices,
      alignColumns, List.filter_cons, List.filterMap_cons, List.map_cons, List.map_nil,
      List.foldr]
    norm_num [List.lookup, hAB, hAC, optMean, List.filterMap_cons]
  refine ⟨hmain, ?_⟩
  rw [hmain]
  exact Option.some_ne_none _

/-- C9 amended: when at least two close-price series exist, each tracked
symbol present among the matrix columns and having at least one other
column is mapped to the skipna mean of its pairwise Pearson correlations
against the other columns (self excluded); if none of those correlations
is defined the symbol is mapped to NaN (present, not absent and not zero);
with fewer than two series the result map is empty. -/
theorem C9_amended_mean_correlation_map (tp : List String) (data : List (String × PSeries))
    (p : String) (xs : PSeries)
    (hp : p ∈ tp)
    (hlen : 1 < (buildClosePrices data).length)
    (hcol : (matrixColumns data).lookup p = some xs)
    (hother : ((matrixColumns data).filter fun c => c.1 ≠ p) ≠ []) :
    ((analyze_portfolio_correlation tp data).lookup p =
      some (optMean (((matrixColumns data).filter fun c => c.1 ≠ p).map fun c => pearson xs c.2)))
    ∧ ((∀ c ∈ (matrixColumns data).filter fun c => c.1 ≠ p, pearson xs c.2 = none) →
        (analyze_portfolio_correlation tp data).lookup p = some none)
    ∧ ∀ (tp2 : List String) (data2 : List (String × PSeries)),
        (buildClosePrices data2).length ≤ 1 → analyze_portfolio_correlation tp2 data2 = [] := by
  simp only [matrixColumns] at hcol hother
  have hmain : (analyze_portfolio_correlation tp data).lookup p =
      some (optMean (((alignColumns (buildClosePrices data)).filter fun c => c.1 ≠ p).map
        fun c => pearson xs c.2)) := by
    simp only [analyze_portfolio_correlation]
    rw [if_pos hlen]
    apply lookup_filterMap_keyed
    · intro q e hq
      cases hcq : (alignColumns (buildClosePrices data)).lookup q with
      | none =>
        simp only [hcq] at hq
        cases hq
      | some ys =>
        simp only [hcq] at hq
        by_cases hemp : ((alignColumns (buildClosePrices data)).filter fun c => c.1 ≠ q).isEmpty
        · rw [if_pos hemp] at hq; cases hq
        · rw [if_neg hemp] at hq
          injection hq with hq2
          rw [← hq2]
    · exact hp
    · have hemp : ((alignColumns (buildClosePrices data)).filter fun c => c.1 ≠ p).isEmpty = false :=
        Bool.eq_false_iff.mpr fun h => hother (List.isEmpty_iff.mp h)
      simp only [hcol, hemp]
      simp
  refine ⟨by simpa [matrixColumns] using hmain, ?_, ?_⟩
  · intro hall
    rw [hmain]
    have hnone : optMean (((alignColumns (buildClosePrices data)).filter fun c => c.1 ≠ p).map
        fun c => pearson xs c.2) = none := by
      apply optMean_all_none
      intro x hx
      obtain ⟨c, hc, rfl⟩ := List.mem_map.mp hx
      exact hall c (by simpa [matrixColumns] using hc)
    rw [hnone]
  · intro tp2 data2 hle
    simp only [analyze_portfolio_correlation]
    rw [if_neg (not_lt.mpr hle)]

/-- C9 amended witness: in the three-symbol fixture, A is mapped to the
skipna mean of its pairwise correlations against B and C. -/
theorem C9_amended_witness :
    (analyze_portfolio_correlation corrPairs corrData).lookup "A" =
      some (optMean (((matrixColumns corrData).filter fun c => c.1 ≠ "A").map
        fun c => pearson [some 1, none] c.2)) :=
  (C9_amended_mean_correlation_map corrPairs corrData "A" [some 1, none]
    (by simp [corrPairs])
    (by norm_num [buildClosePrices, corrData])
    (by norm_num [matrixColumns, alignColumns, buildClosePrices, corrData, List.lookup])
    (by
      norm_num [matrixColumns, alignColumns, buildClosePrices, corrData]
      intro h
      simp at h)).1
